import Mathlib

/-!
Verification of the build-failure classification engine of `crates/uv-build/src/error.rs`.

Strings are modelled as `List Char`. The six failure signatures of the source are
regular expressions of the Rust `regex` crate; they only use literals, the any
character class `.` (anything but a newline), the character classes `\d` and
`[a-zA-Z10-9]`, greedy repetition of a single-character class, one capture group,
and short alternations. They are embedded as values of a small regex syntax `RE`
together with a backtracking matcher implementing that crate leftmost-first,
greedy-priority match semantics for this fragment (`\d` is modelled as an ASCII
digit; every input appearing in the claims is ASCII).
-/

set_option maxRecDepth 100000

/-- An apostrophe character (U+0027), kept out of string literals. -/
def squote : Char := Char.ofNat 39

/-- Unicode `White_Space` test, as used by the Rust `str::trim`. -/
def isRustWhitespace (c : Char) : Bool :=
  let n := c.toNat
  n == 9 || n == 10 || n == 11 || n == 12 || n == 13 || n == 32 ||
  n == 0x85 || n == 0xA0 || n == 0x1680 || (0x2000 ≤ n && n ≤ 0x200A) ||
  n == 0x2028 || n == 0x2029 || n == 0x202F || n == 0x205F || n == 0x3000

/-- Rust `str::trim`: strip whitespace from both ends. -/
def rustTrim (l : List Char) : List Char :=
  ((l.dropWhile isRustWhitespace).reverse.dropWhile isRustWhitespace).reverse

/-- Join with newline separators, as `itertools` join does. -/
def joinLines (ls : List (List Char)) : List Char :=
  List.intercalate ['\n'] ls

/-- Regex fragment used by the six signatures: empty word, single-character
class, concatenation, alternation, greedy star over a single-character class,
and the (unique) capture group. -/
inductive RE where
  | eps : RE
  | ch (p : Char → Bool) : RE
  | cat (a b : RE) : RE
  | alt (a b : RE) : RE
  | starCh (p : Char → Bool) : RE
  | group (a : RE) : RE

/-- Greedy star over a one-character class `p`, in continuation style: consume
as many `p`-characters as possible, backtracking one at a time into `k`. -/
def runStar (p : Char → Bool) : List Char →
    (List Char → Option (Option (List Char))) → Option (Option (List Char))
  | [], k => k []
  | c :: rest, k =>
    if p c then (runStar p rest k).orElse fun _ => k (c :: rest)
    else k (c :: rest)

/-- Backtracking matcher with leftmost-first priority (alternatives in order,
stars greedy), threading the capture-group content `cap` through the
continuation `k`.  `mrun r s cap k` tries to match `r` at the start of `s`. -/
def mrun : RE → List Char → Option (List Char) →
    (List Char → Option (List Char) → Option (Option (List Char))) →
    Option (Option (List Char))
  | .eps, s, cap, k => k s cap
  | .ch _, [], _, _ => none
  | .ch p, c :: rest, cap, k => if p c then k rest cap else none
  | .cat a b, s, cap, k => mrun a s cap fun s₁ cap₁ => mrun b s₁ cap₁ k
  | .alt a b, s, cap, k => (mrun a s cap k).orElse fun _ => mrun b s cap k
  | .starCh p, s, cap, k => runStar p s fun s₁ => k s₁ cap
  | .group a, s, cap, k =>
      mrun a s cap fun s₁ _ => k s₁ (some (s.take (s.length - s₁.length)))

/-- Unanchored search (`Regex::captures` / `Regex::is_match`): try each start
position from the left; at the first position where a match exists, return its
capture-group content. -/
def research (r : RE) : List Char → Option (Option (List Char))
  | [] => mrun r [] none fun _ cap => some cap
  | c :: rest =>
    (mrun r (c :: rest) none fun _ cap => some cap).orElse fun _ =>
      research r rest

/-- Rust `re.captures(line).map(|c| c.extract())` for a regex with one capture
group: the captured substring of the leftmost-first match, if any. -/
def searchCap (r : RE) (l : List Char) : Option (List Char) :=
  (research r l).bind id

/-- Rust `re.is_match(line)`. -/
def isMatch (r : RE) (l : List Char) : Bool :=
  (research r l).isSome

/-- Any-character class `.`: anything but a newline. -/
def anyP (c : Char) : Bool := c != '\n'

/-- A literal character. -/
def chLit (c : Char) : RE := .ch fun x => x == c

/-- A literal word. -/
def reLit : List Char → RE
  | [] => .eps
  | c :: cs => .cat (chLit c) (reLit cs)

/-- Greedy plus over a one-character class. -/
def rePlus (p : Char → Bool) : RE := .cat (.ch p) (.starCh p)

/-- Extension alternative of the shape letter-dot-dot: the letter then two any-characters. -/
def dot2 (c : Char) : RE := .cat (chLit c) (.cat (.ch anyP) (.ch anyP))

/-- Source extension alternation, alternatives in source order. -/
def extCH : RE := .alt (reLit ['c']) (.alt (dot2 'c') (.alt (reLit ['h']) (dot2 'h')))

/-- Header extension alternation, alternatives in source order. -/
def extH : RE := .alt (reLit ['h']) (dot2 'h')

/-- Digit class (modelled as an ASCII digit). -/
def digitP (c : Char) : Bool := c.isDigit

/-- Library-name character class of `LD_NOT_FOUND_RE`. -/
def ldClassP (c : Char) : Bool :=
  ('a' ≤ c && c ≤ 'z') || ('A' ≤ c && c ≤ 'Z') || c == '1' || ('0' ≤ c && c ≤ '9')

/-- The literal `: fatal error: ` of the GCC signature. -/
def ferLit : List Char := ": fatal error: ".data

/-- The literal `: No such file or directory` shared by several signatures. -/
def gccTail : List Char := ": No such file or directory".data

/-- The capture group `(.*\.(?:h|h..))` of the missing-header signatures. -/
def gccGroup : RE := .cat (.starCh anyP) (.cat (chLit '.') extH)

/-- The GCC signature after its second `\d+`: `: fatal error: (group): No
such file or directory` (split into named stages for the proofs below). -/
def gccR8 : RE := .cat (.group gccGroup) (reLit gccTail)

def gccR7 : RE := .cat (reLit ferLit) gccR8

def gccR6 : RE := .cat (rePlus digitP) gccR7

def gccR5 : RE := .cat (chLit ':') gccR6

def gccR4 : RE := .cat (rePlus digitP) gccR5

def gccR3 : RE := .cat (chLit ':') gccR4

def gccR2 : RE := .cat extCH gccR3

/-- The GCC signature after the initial `.*`: `\.(?:c|c..|h|h..):\d+:\d+: ...` -/
def gccRest : RE := .cat (chLit '.') gccR2

/-- GCC missing-header pattern: a source location, then fatal error, then the captured header path, then the no-such-file phrase. -/
def MISSING_HEADER_RE_GCC : RE := .cat (.starCh anyP) gccRest

/-- Clang missing-header pattern: as GCC but the captured path is single-quoted and the trailing phrase is file not found. -/
def MISSING_HEADER_RE_CLANG : RE :=
  .cat (.starCh anyP) (.cat (chLit '.') (.cat extCH (.cat (chLit ':')
    (.cat (rePlus digitP) (.cat (chLit ':') (.cat (rePlus digitP)
      (.cat (reLit ": fatal error: ".data)
        (.cat (chLit squote)
          (.cat (.group (.cat (.starCh anyP) (.cat (chLit '.') extH)))
            (.cat (chLit squote) (reLit " file not found".data)))))))))))

/-- MSVC missing-header pattern: a parenthesised line number, the C1083 phrase, and the single-quoted captured path. -/
def MISSING_HEADER_RE_MSVC : RE :=
  .cat (.starCh anyP) (.cat (chLit '.') (.cat extCH (.cat (chLit '(')
    (.cat (rePlus digitP)
      (.cat (reLit "): fatal error C1083: Cannot open include file: ".data)
        (.cat (chLit squote)
          (.cat (.group (.cat (.starCh anyP) (.cat (chLit '.') extH)))
            (.cat (chLit squote) (reLit ": No such file or directory".data)))))))))

/-- Linker pattern: the ld cannot-find line with the captured library name after -l. -/
def LD_NOT_FOUND_RE : RE :=
  .cat (reLit "/usr/bin/ld: cannot find -l".data)
    (.cat (.group (rePlus ldClassP)) (reLit ": No such file or directory".data))

/-- The stderr line reported by setuptools when the `wheel` package is absent. -/
def wheelNotFoundText : List Char :=
  "error: invalid command ".data ++ [squote] ++ "bdist_wheel".data ++ [squote]

/-- Wheel pattern: the literal invalid-command bdist_wheel line. -/
def WHEEL_NOT_FOUND_RE : RE := reLit wheelNotFoundText

/-- The stderr line reported by Python when the `torch` module is absent. -/
def torchNotFoundText : List Char :=
  "ModuleNotFoundError: No module named ".data ++ [squote] ++ "torch".data ++ [squote]

/-- Torch pattern: the literal no-module-named torch line. -/
def TORCH_NOT_FOUND_RE : RE := reLit torchNotFoundText

/-- The source `enum MissingLibrary`. -/
inductive MissingLibrary where
  | Header (name : List Char) : MissingLibrary
  | Linker (name : List Char) : MissingLibrary
  | PythonPackage (name : List Char) : MissingLibrary
deriving DecidableEq, Repr

/-- The source `struct MissingHeaderCause`. -/
structure MissingHeaderCause where
  missing_library : MissingLibrary
  version_id : List Char
deriving DecidableEq, Repr

/-- Modelled from the spec: the platform-native subprocess exit status is an
external, opaque value; classification only stores it and renders it through
its platform display form, kept abstract here as `render`. -/
structure ExitStatusM where
  render : List Char
deriving DecidableEq, Repr

/-- The `uv_configuration::BuildOutput` verbosity levels distinguished by
`from_command_output` (`Stderr` = terse, `Debug` = verbose). -/
inductive BuildOutput where
  | Stderr : BuildOutput
  | Debug : BuildOutput
deriving DecidableEq, Repr

/-- Modelled from the spec: `crate::PythonRunnerOutput` (defined outside the
classification module) is the finished capture of the build subprocess: exit
status plus ordered stdout and stderr line sequences. -/
structure PythonRunnerOutput where
  status : ExitStatusM
  stdout : List (List Char)
  stderr : List (List Char)
deriving DecidableEq, Repr

/-- The variants of `enum Error` produced by `from_command_output` (the
remaining variants of the source enum are I/O and setup failures never
returned by classification). -/
inductive Error where
  | BuildBackendOutput (message : List Char) (exit_code : ExitStatusM)
      (stdout : List Char) (stderr : List Char) : Error
  | MissingHeaderOutput (message : List Char) (exit_code : ExitStatusM)
      (stdout : List Char) (stderr : List Char)
      (missing_header_cause : MissingHeaderCause) : Error
  | BuildBackend (message : List Char) (exit_code : ExitStatusM) : Error
  | MissingHeader (message : List Char) (exit_code : ExitStatusM)
      (missing_header_cause : MissingHeaderCause) : Error
deriving DecidableEq, Repr

/-- The closure passed to `find_map` in `from_command_output`: classify one
(already current) stderr line, trying the signatures in source order. -/
def classifyLine (line : List Char) : Option MissingLibrary :=
  match ((searchCap MISSING_HEADER_RE_GCC (rustTrim line)).orElse fun _ =>
      searchCap MISSING_HEADER_RE_CLANG (rustTrim line)).orElse fun _ =>
      searchCap MISSING_HEADER_RE_MSVC (rustTrim line) with
  | some header => some (.Header header)
  | none =>
    match searchCap LD_NOT_FOUND_RE (rustTrim line) with
    | some library => some (.Linker library)
    | none =>
      if isMatch WHEEL_NOT_FOUND_RE (rustTrim line) then
        some (.PythonPackage "wheel".data)
      else if isMatch TORCH_NOT_FOUND_RE (rustTrim line) then
        some (.PythonPackage "torch".data)
      else none

/-- The scan `output.stderr.iter().rev().take(10).find_map(...)`: the last ten
stderr lines, most recent first. -/
def scanStderr (stderr : List (List Char)) : Option MissingLibrary :=
  (stderr.reverse.take 10).findSome? classifyLine

/-- The classifier `Error::from_command_output`. -/
def Error.from_command_output (message : List Char) (output : PythonRunnerOutput)
    (level : BuildOutput) (version_id : List Char) : Error :=
  match scanStderr output.stderr with
  | some missing_library =>
    match level with
    | .Stderr =>
      .MissingHeader message output.status
        ⟨missing_library, version_id⟩
    | .Debug =>
      .MissingHeaderOutput message output.status
        (joinLines output.stdout) (joinLines output.stderr)
        ⟨missing_library, version_id⟩
  | none =>
    match level with
    | .Stderr => .BuildBackend message output.status
    | .Debug =>
      .BuildBackendOutput message output.status
        (joinLines output.stdout) (joinLines output.stderr)

/-- The chained cause of a classified error, when one was attached. -/
def causeOf : Error → Option MissingHeaderCause
  | .MissingHeader _ _ c => some c
  | .MissingHeaderOutput _ _ _ _ c => some c
  | _ => none

/-- The `Display` implementation of `MissingHeaderCause` (its `fmt` method). -/
def MissingHeaderCause.fmt (c : MissingHeaderCause) : List Char :=
  match c.missing_library with
  | .Header header =>
    "This error likely indicates that you need to install a library that provides \"".data
      ++ header ++ "\" for ".data ++ c.version_id
  | .Linker library =>
    "This error likely indicates that you need to install the library that provides a shared library for ".data
      ++ library ++ " for ".data ++ c.version_id ++ " (e.g. lib".data ++ library ++ "-dev)".data
  | .PythonPackage package =>
    "This error likely indicates that ".data ++ c.version_id ++ " depends on ".data
      ++ package ++ ", but doesn".data ++ [squote]
      ++ "t declare it as a build dependency. If ".data ++ c.version_id
      ++ " is a first-party package, consider adding ".data ++ package
      ++ " to its `build-system.requires`. Otherwise, `uv pip install ".data ++ package
      ++ "` into the environment and re-run with `--no-build-isolation`.".data

/-- The primary display string of an `Error`, from its `#[error(...)]`
attribute templates. -/
def Error.fmt : Error → List Char
  | .BuildBackend message exit_code => message ++ " with ".data ++ exit_code.render
  | .MissingHeader message exit_code _ => message ++ " with ".data ++ exit_code.render
  | .BuildBackendOutput message exit_code stdout stderr =>
    message ++ " with ".data ++ exit_code.render
      ++ "\n--- stdout:\n".data ++ stdout ++ "\n--- stderr:\n".data ++ stderr ++ "\n---".data
  | .MissingHeaderOutput message exit_code stdout stderr _ =>
    message ++ " with ".data ++ exit_code.render
      ++ "\n--- stdout:\n".data ++ stdout ++ "\n--- stderr:\n".data ++ stderr ++ "\n---".data

/-- The chained explanation string (`source()` rendering), when present. -/
def explanationOf (e : Error) : Option (List Char) :=
  (causeOf e).map MissingHeaderCause.fmt

/-- Modelled from the spec: the section 4.3 `PythonPackage` remediation
template, reproduced word for word ("This error likely indicates that
{packageIdentity} depends on {token}, then the build-dependency advice with
plain build-system requirements wording and a plain install suggestion),
for comparison with the code template. -/
def specPythonPackageExplanation (token identity : List Char) : List Char :=
  "This error likely indicates that ".data ++ identity ++ " depends on ".data
    ++ token ++ ", but doesn".data ++ [squote]
    ++ "t declare it as a build dependency. If ".data ++ identity
    ++ " is a first-party package, consider adding ".data ++ token
    ++ " to its build-system requirements. Otherwise, install ".data ++ token
    ++ " into the environment and re-run with build isolation disabled.".data

/-- Side conditions on the header extension for the amended Claim C4: the
path ends in `.h`, or in `.h` plus two further characters that are not a
newline, colon or dot. -/
def HeaderExtOK (hext : List Char) : Prop :=
  hext = ['h'] ∨ ∃ x y, hext = ['h', x, y] ∧
    x ≠ '\n' ∧ x ≠ ':' ∧ x ≠ '.' ∧ y ≠ '\n' ∧ y ≠ ':' ∧ y ≠ '.'

/-- A GCC-style missing-header diagnostic line
`{f}.c:{d₁}:{d₂}: fatal error: {q}.{hext}: No such file or directory`. -/
def gccDiagnosticLine (f d₁ d₂ q hext : List Char) : List Char :=
  f ++ '.' :: 'c' :: ':' ::
    (d₁ ++ ':' :: (d₂ ++ (ferLit ++ (q ++ '.' :: (hext ++ gccTail)))))

/-- The continuation entered when the GCC capture group closes over an input
`X`: record the consumed prefix of `X` as the capture and match the trailing
literal. -/
def gccCloseK (X : List Char) :
    List Char → Option (List Char) → Option (Option (List Char)) :=
  fun s₁ _ =>
    mrun (reLit gccTail) s₁ (some (X.take (X.length - s₁.length)))
      fun _ cap => some cap

/-! ### Scan-level helper lemmas -/

/-- The attached cause of a classification is the scan result paired with the
package identity, at either verbosity level. -/
theorem causeOf_fco (m : List Char) (o : PythonRunnerOutput) (lvl : BuildOutput)
    (v : List Char) :
    causeOf (Error.from_command_output m o lvl v)
      = (scanStderr o.stderr).map fun ml => ⟨ml, v⟩ := by
  cases h : scanStderr o.stderr <;> cases lvl <;>
    simp [Error.from_command_output, h, causeOf]

/-- Terse-mode primary display string. -/
theorem fmt_fco_stderr (m : List Char) (o : PythonRunnerOutput) (v : List Char) :
    (Error.from_command_output m o .Stderr v).fmt
      = m ++ " with ".data ++ o.status.render := by
  cases h : scanStderr o.stderr <;>
    simp [Error.from_command_output, h, Error.fmt]

/-- Verbose-mode primary display string. -/
theorem fmt_fco_debug (m : List Char) (o : PythonRunnerOutput) (v : List Char) :
    (Error.from_command_output m o .Debug v).fmt
      = m ++ " with ".data ++ o.status.render
        ++ "\n--- stdout:\n".data ++ joinLines o.stdout
        ++ "\n--- stderr:\n".data ++ joinLines o.stderr ++ "\n---".data := by
  cases h : scanStderr o.stderr <;>
    simp [Error.from_command_output, h, Error.fmt]

/-! ### Claims C1, C2, C5, C7, C10 -/

/-- Claim C1: classification examines only the last 10 stderr lines, iterating
from the most recent line backwards and trimming each line before matching
(the trim is part of `classifyLine`); the attached cause is determined by the
most recent line within that window that matches any signature, regardless of
what less recent lines in the window would match; lines outside the 10-line
tail window never influence the attached cause. -/
theorem c1_window_and_most_recent_wins :
    (∀ (m : List Char) (o₁ o₂ : PythonRunnerOutput) (lvl : BuildOutput)
      (v : List Char),
      o₁.stderr.reverse.take 10 = o₂.stderr.reverse.take 10 →
      causeOf (Error.from_command_output m o₁ lvl v)
        = causeOf (Error.from_command_output m o₂ lvl v))
    ∧
    (∀ (m : List Char) (o : PythonRunnerOutput) (lvl : BuildOutput)
      (v : List Char) (w₁ w₂ : List (List Char)) (line : List Char)
      (c : MissingLibrary),
      o.stderr.reverse.take 10 = w₁ ++ line :: w₂ →
      (∀ y ∈ w₁, classifyLine y = none) →
      classifyLine line = some c →
      causeOf (Error.from_command_output m o lvl v) = some ⟨c, v⟩) := by
  constructor
  · intro m o₁ o₂ lvl v h
    rw [causeOf_fco, causeOf_fco, scanStderr, scanStderr, h]
  · intro m o lvl v w₁ w₂ line c hwin hnone hline
    rw [causeOf_fco, scanStderr, hwin, List.findSome?_append,
      List.findSome?_eq_none_iff.mpr hnone, Option.none_or,
      List.findSome?_cons_of_isSome _ (by rw [hline]; rfl)]
    simp [hline]

/-- Witness for C1 at concrete inputs: an 11-line stderr whose first line is
outside the window, and a window whose two most recent lines both match
different signatures. -/
theorem c1_witness :
    causeOf (Error.from_command_output "m".data
        ⟨⟨"exit status: 1".data⟩, [],
          "x0".data :: List.replicate 10 "quiet".data⟩ .Stderr "p".data)
      = causeOf (Error.from_command_output "m".data
        ⟨⟨"exit status: 1".data⟩, ["noise".data],
          "y0".data :: List.replicate 10 "quiet".data⟩ .Stderr "p".data)
    ∧ causeOf (Error.from_command_output "m".data
        ⟨⟨"exit status: 1".data⟩, [],
          ["/usr/bin/ld: cannot find -lfoo: No such file or directory".data,
            wheelNotFoundText]⟩ .Debug "p".data)
      = some ⟨.PythonPackage "wheel".data, "p".data⟩ := by
  constructor
  · exact c1_window_and_most_recent_wins.1 "m".data _ _ .Stderr "p".data (by decide)
  · exact c1_window_and_most_recent_wins.2 "m".data _ .Debug "p".data
      [] ["/usr/bin/ld: cannot find -lfoo: No such file or directory".data]
      wheelNotFoundText (.PythonPackage "wheel".data) (by decide)
      (by intro y hy; cases hy) (by decide)

/-- Claim C2: when no line of the 10-line tail window matches any signature,
classification returns the generic result without a cause: `BuildBackend`
(message and exit status) under terse output, `BuildBackendOutput` (message,
exit status, joined stdout, joined stderr) under verbose output. -/
theorem c2_no_match_generic (m : List Char) (o : PythonRunnerOutput)
    (v : List Char)
    (h : ∀ line ∈ o.stderr.reverse.take 10, classifyLine line = none) :
    Error.from_command_output m o .Stderr v = .BuildBackend m o.status
    ∧ Error.from_command_output m o .Debug v
      = .BuildBackendOutput m o.status (joinLines o.stdout) (joinLines o.stderr) := by
  have hscan : scanStderr o.stderr = none := by
    rw [scanStderr]; exact List.findSome?_eq_none_iff.mpr h
  constructor <;> simp [Error.from_command_output, hscan]

/-- Witness for C2: a concrete two-line stderr without any matching line. -/
theorem c2_witness :
    Error.from_command_output "Failed building wheel through setup.py".data
      ⟨⟨"exit status: 1".data⟩, ["out".data], ["usage: setup.py".data, "error: oops".data]⟩
      .Stderr "pkg-1.0".data
      = .BuildBackend "Failed building wheel through setup.py".data ⟨"exit status: 1".data⟩ := by
  exact (c2_no_match_generic _ _ _ (by decide)).1

/-- Claim C5: the primary display string is exactly `{message} with
{exit_code}` in terse mode, and exactly `{message} with {exit_code}\n---
stdout:\n{stdout}\n--- stderr:\n{stderr}\n---` in verbose mode, with stdout
and stderr joined with newline separators, for every message, exit status and
captured output, with or without an attached cause. -/
theorem c5_display_strings (m : List Char) (o : PythonRunnerOutput)
    (v : List Char) :
    (Error.from_command_output m o .Stderr v).fmt
      = m ++ " with ".data ++ o.status.render
    ∧ (Error.from_command_output m o .Debug v).fmt
      = m ++ " with ".data ++ o.status.render
        ++ "\n--- stdout:\n".data ++ joinLines o.stdout
        ++ "\n--- stderr:\n".data ++ joinLines o.stderr ++ "\n---".data :=
  ⟨fmt_fco_stderr m o v, fmt_fco_debug m o v⟩

/-- Claim C7: verbosity never affects matching: the attached cause of a terse
classification and of a verbose classification of the same captured output are
identical. -/
theorem c7_verbosity_independent (m : List Char) (o : PythonRunnerOutput)
    (v : List Char) :
    causeOf (Error.from_command_output m o .Stderr v)
      = causeOf (Error.from_command_output m o .Debug v) := by
  rw [causeOf_fco, causeOf_fco]

/-- Claim C10: classification inspects only stderr when attaching a cause: two
captured outputs with the same stderr lines and exit status, but arbitrary
stdout, receive the same cause. -/
theorem c10_stdout_independent (m : List Char) (o₁ o₂ : PythonRunnerOutput)
    (lvl : BuildOutput) (v : List Char)
    (hstderr : o₁.stderr = o₂.stderr) (hstatus : o₁.status = o₂.status) :
    causeOf (Error.from_command_output m o₁ lvl v)
      = causeOf (Error.from_command_output m o₂ lvl v) := by
  rw [causeOf_fco, causeOf_fco, hstderr]

/-! ### Claims C8 and C9: concrete signature instances -/

/-- Claim C8: for package identity `pygraphviz-1.11` and the GCC-style stderr
line `pygraphviz/graphviz_wrap.c:3020:10: fatal error: graphviz/cgraph.h: No
such file or directory` in the scanned window, the explanation of the attached
cause is exactly the quoted Header remediation string. -/
theorem c8_gcc_header_explanation (m : List Char) (st : ExitStatusM)
    (sd : List (List Char)) (lvl : BuildOutput) :
    explanationOf (Error.from_command_output m
        ⟨st, sd, ["pygraphviz/graphviz_wrap.c:3020:10: fatal error: graphviz/cgraph.h: No such file or directory".data]⟩
        lvl "pygraphviz-1.11".data)
      = some "This error likely indicates that you need to install a library that provides \"graphviz/cgraph.h\" for pygraphviz-1.11".data := by
  have hscan : scanStderr
      ["pygraphviz/graphviz_wrap.c:3020:10: fatal error: graphviz/cgraph.h: No such file or directory".data]
      = some (.Header "graphviz/cgraph.h".data) := by decide
  rw [explanationOf, causeOf_fco]
  dsimp only
  rw [hscan]
  decide

/-- Claim C9: for package identity `pygraphviz-1.11` and the stderr line
`/usr/bin/ld: cannot find -lncurses: No such file or directory` in the scanned
window, a Linker cause with token `ncurses` is attached, with exactly the
quoted remediation string. -/
theorem c9_linker_explanation (m : List Char) (st : ExitStatusM)
    (sd : List (List Char)) (lvl : BuildOutput) :
    causeOf (Error.from_command_output m
        ⟨st, sd, ["/usr/bin/ld: cannot find -lncurses: No such file or directory".data]⟩
        lvl "pygraphviz-1.11".data)
      = some ⟨.Linker "ncurses".data, "pygraphviz-1.11".data⟩
    ∧ explanationOf (Error.from_command_output m
        ⟨st, sd, ["/usr/bin/ld: cannot find -lncurses: No such file or directory".data]⟩
        lvl "pygraphviz-1.11".data)
      = some "This error likely indicates that you need to install the library that provides a shared library for ncurses for pygraphviz-1.11 (e.g. libncurses-dev)".data := by
  have hscan : scanStderr
      ["/usr/bin/ld: cannot find -lncurses: No such file or directory".data]
      = some (.Linker "ncurses".data) := by decide
  constructor
  · rw [causeOf_fco]
    dsimp only
    rw [hscan]
    decide
  · rw [explanationOf, causeOf_fco]
    dsimp only
    rw [hscan]
    decide

/-! ### Claim C3: the bdist_wheel signature and its remediation text -/

/-- Counterexample for C3 as stated: the bdist_wheel line does attach a
`PythonPackage` cause with token `wheel`, but the produced explanation is not
the spec section 4.3 template instantiated with that token and identity (the
code says "to its \`build-system.requires\`" and "\`uv pip install wheel\`
... \`--no-build-isolation\`" where the spec template says "to its
build-system requirements" and "install wheel ... with build isolation
disabled"). -/
theorem c3_counterexample :
    causeOf (Error.from_command_output "Failed building wheel through setup.py".data
        ⟨⟨"exit status: 1".data⟩, [], [wheelNotFoundText]⟩ .Stderr "pygraphviz-1.11".data)
      = some ⟨.PythonPackage "wheel".data, "pygraphviz-1.11".data⟩
    ∧ explanationOf (Error.from_command_output "Failed building wheel through setup.py".data
        ⟨⟨"exit status: 1".data⟩, [], [wheelNotFoundText]⟩ .Stderr "pygraphviz-1.11".data)
      ≠ some (specPythonPackageExplanation "wheel".data "pygraphviz-1.11".data) := by
  decide

/-- Claim C3 as amended: for the stderr line `error: invalid command
bdist_wheel` in the scanned window and any package identity, classification
attaches a `PythonPackage` cause with token `wheel`, and the explanation is
exactly the code template, with backticked build-system.requires, the
uv pip install suggestion and the no-build-isolation flag -/
theorem c3_amended (v m : List Char) (st : ExitStatusM) (sd : List (List Char))
    (lvl : BuildOutput) :
    causeOf (Error.from_command_output m ⟨st, sd, [wheelNotFoundText]⟩ lvl v)
      = some ⟨.PythonPackage "wheel".data, v⟩
    ∧ explanationOf (Error.from_command_output m ⟨st, sd, [wheelNotFoundText]⟩ lvl v)
      = some ("This error likely indicates that ".data ++ v ++ " depends on ".data
          ++ "wheel".data ++ ", but doesn".data ++ [squote]
          ++ "t declare it as a build dependency. If ".data ++ v
          ++ " is a first-party package, consider adding ".data ++ "wheel".data
          ++ " to its `build-system.requires`. Otherwise, `uv pip install ".data
          ++ "wheel".data
          ++ "` into the environment and re-run with `--no-build-isolation`.".data) := by
  have hscan : scanStderr [wheelNotFoundText]
      = some (.PythonPackage "wheel".data) := by decide
  constructor
  · rw [causeOf_fco]
    dsimp only
    rw [hscan]
    rfl
  · rw [explanationOf, causeOf_fco]
    dsimp only
    rw [hscan]
    simp [MissingHeaderCause.fmt]

/-! ### Containment machinery for Claim C6 -/

/-- An infix of an append lies in the left part, the right part, or spans the
boundary. -/
theorem infix_append_split {α : Type} {l a b : List α} (h : l <:+: a ++ b) :
    l <:+: a ∨ l <:+: b ∨
      ∃ l₁ l₂, l = l₁ ++ l₂ ∧ l₁ ≠ [] ∧ l₂ ≠ [] ∧ l₁ <:+ a ∧ l₂ <+: b := by
  obtain ⟨s, t, hst⟩ := h
  rw [List.append_assoc] at hst
  rcases List.append_eq_append_iff.mp hst with ⟨w, hw₁, hw₂⟩ | ⟨w, hw₁, hw₂⟩
  · rcases List.append_eq_append_iff.mp hw₂ with ⟨z, hz₁, hz₂⟩ | ⟨z, hz₁, hz₂⟩
    · left
      exact ⟨s, z, by rw [hw₁, hz₁, List.append_assoc]⟩
    · by_cases hw : w = []
      · right; left
        subst hw
        simp only [List.nil_append] at hz₁
        refine ⟨[], t, ?_⟩
        simp only [List.nil_append]
        rw [hz₁]
        exact hz₂.symm
      · by_cases hz : z = []
        · left
          subst hz
          simp only [List.append_nil] at hz₁
          refine ⟨s, [], ?_⟩
          simp only [List.append_nil]
          rw [hz₁]
          exact hw₁.symm
        · right; right
          exact ⟨w, z, hz₁, hw, hz, ⟨s, hw₁.symm⟩, ⟨t, hz₂.symm⟩⟩
  · right; left
    exact ⟨w, t, by rw [hw₂, List.append_assoc]⟩

/-- A word is not contained in `m ++ (mid ++ r)` when it is contained in none
of the three parts, no character of the word starts `mid`, and the first
character of the word does not occur in `mid` (so it cannot span either boundary). -/
theorem not_infix_three (x m mid r : List Char) (hmidne : mid ≠ [])
    (hm : ¬ x <:+: m) (hmid : ¬ x <:+: mid) (hr : ¬ x <:+: r)
    (h₁ : ∀ c ∈ x, mid.head? ≠ some c)
    (h₂ : ∀ c ∈ mid, x.head? ≠ some c) :
    ¬ x <:+: m ++ (mid ++ r) := by
  intro h
  rcases infix_append_split h with h | h | ⟨l₁, l₂, hx, hne₁, hne₂, _, hpre⟩
  · exact hm h
  · rcases infix_append_split h with h | h | ⟨p₁, p₂, hx, hne₁, hne₂, hsuf, _⟩
    · exact hmid h
    · exact hr h
    · obtain ⟨c, cs, rfl⟩ := List.exists_cons_of_ne_nil hne₁
      have hcx : x.head? = some c := by rw [hx]; rfl
      exact h₂ c (hsuf.mem (List.mem_cons_self c cs)) hcx
  · obtain ⟨c, cs, rfl⟩ := List.exists_cons_of_ne_nil hne₂
    obtain ⟨d, ds, hd⟩ := List.exists_cons_of_ne_nil hmidne
    rw [hd] at hpre
    have hcd : c = d := (List.cons_prefix_cons.mp (by simpa using hpre)).1
    have hcx : c ∈ x := by
      rw [hx]; exact List.mem_append_right _ (List.mem_cons_self c cs)
    exact h₁ c hcx (by rw [hd, hcd]; rfl)

/-! ### Claim C6: terse output hides raw text, verbose output shows it -/

/-- Counterexample for C6 as stated: the caller-supplied failure message is
part of the input, and a message containing the text `stdout` makes the
terse-mode display contain `stdout`. -/
theorem c6_counterexample :
    "stdout".data <:+:
      (Error.from_command_output "building stdout failed".data
        ⟨⟨"exit status: 1".data⟩, [], []⟩ .Stderr "pkg-1.0".data).fmt := by
  decide

/-- Claim C6 as amended: provided neither the caller-supplied message nor the
rendered exit status contains the literal text `stdout` or `stderr`, the
terse-mode display contains neither text; and the verbose-mode display always
consists of the primary line followed by the stdout marker, the joined stdout
text, the stderr marker, the joined stderr text and the closing delimiter, in
that order. -/
theorem c6_amended (m : List Char) (o : PythonRunnerOutput) (v : List Char)
    (h1 : ¬ "stdout".data <:+: m) (h2 : ¬ "stderr".data <:+: m)
    (h3 : ¬ "stdout".data <:+: o.status.render)
    (h4 : ¬ "stderr".data <:+: o.status.render) :
    (¬ "stdout".data <:+: (Error.from_command_output m o .Stderr v).fmt
      ∧ ¬ "stderr".data <:+: (Error.from_command_output m o .Stderr v).fmt)
    ∧ (Error.from_command_output m o .Debug v).fmt
      = m ++ " with ".data ++ o.status.render
        ++ "\n--- stdout:\n".data ++ joinLines o.stdout
        ++ "\n--- stderr:\n".data ++ joinLines o.stderr ++ "\n---".data := by
  refine ⟨⟨?_, ?_⟩, fmt_fco_debug m o v⟩
  · rw [fmt_fco_stderr, List.append_assoc]
    exact not_infix_three _ _ _ _ (by decide) h1 (by decide) h3 (by decide) (by decide)
  · rw [fmt_fco_stderr, List.append_assoc]
    exact not_infix_three _ _ _ _ (by decide) h2 (by decide) h4 (by decide) (by decide)

/-- Witness for C6 as amended, at a concrete message, output and identity. -/
theorem c6_witness :
    (¬ "stdout".data <:+:
        (Error.from_command_output "Failed building wheel through setup.py".data
          ⟨⟨"exit status: 1".data⟩, ["line one".data], ["error: oops".data]⟩
          .Stderr "pkg-1.0".data).fmt
      ∧ ¬ "stderr".data <:+:
        (Error.from_command_output "Failed building wheel through setup.py".data
          ⟨⟨"exit status: 1".data⟩, ["line one".data], ["error: oops".data]⟩
          .Stderr "pkg-1.0".data).fmt)
    ∧ (Error.from_command_output "Failed building wheel through setup.py".data
        ⟨⟨"exit status: 1".data⟩, ["line one".data], ["error: oops".data]⟩
        .Debug "pkg-1.0".data).fmt
      = "Failed building wheel through setup.py".data ++ " with ".data
        ++ "exit status: 1".data
        ++ "\n--- stdout:\n".data ++ joinLines ["line one".data]
        ++ "\n--- stderr:\n".data ++ joinLines ["error: oops".data] ++ "\n---".data :=
  c6_amended "Failed building wheel through setup.py".data
    ⟨⟨"exit status: 1".data⟩, ["line one".data], ["error: oops".data]⟩
    "pkg-1.0".data (by decide) (by decide) (by decide) (by decide)

/-! ### Matcher lemmas for Claim C4 -/

/-- Characters consumed by a greedy star never change a successful result of
the rest of the search. -/
theorem runStar_append_sat {p : Char → Bool} {u v : List Char}
    {k : List Char → Option (Option (List Char))} {res : Option (List Char)}
    (hu : ∀ x ∈ u, p x = true) (h : runStar p v k = some res) :
    runStar p (u ++ v) k = some res := by
  induction u with
  | nil => simpa using h
  | cons c cs ih =>
    have hc : p c = true := hu c (by simp)
    have ih' := ih fun x hx => hu x (by simp [hx])
    simp [runStar, hc, ih']

/-- A greedy star fails when the continuation fails on every suffix. -/
theorem runStar_none_of_fail {p : Char → Bool} {v : List Char}
    {k : List Char → Option (Option (List Char))}
    (h : ∀ t, t <:+ v → k t = none) : runStar p v k = none := by
  induction v with
  | nil => simpa [runStar] using h [] (by simp)
  | cons c cs ih =>
    have h1 : k (c :: cs) = none := h _ (by simp)
    have ih' := ih fun t ht => h t (ht.trans (List.suffix_cons c cs))
    by_cases hc : p c = true
    · simp [runStar, hc, ih', h1]
    · simp [runStar, hc, h1]

/-- When the continuation fails on every proper suffix, the greedy star stops
exactly at the full string. -/
theorem runStar_stop_eq {p : Char → Bool} {v : List Char}
    {k : List Char → Option (Option (List Char))}
    (h : ∀ t, t <:+ v → t ≠ v → k t = none) : runStar p v k = k v := by
  cases v with
  | nil => rfl
  | cons c cs =>
    by_cases hc : p c = true
    · have hnone : runStar p cs k = none :=
        runStar_none_of_fail fun t ht =>
          h t (ht.trans (List.suffix_cons c cs)) fun heq => by
            subst heq
            exact absurd ht.length_le (by simp)

      simp [runStar, hc, hnone]
    · simp [runStar, hc]

/-- The greedy star stops immediately when the head fails its class. -/
theorem runStar_stop_head {p : Char → Bool} {v : List Char}
    {k : List Char → Option (Option (List Char))}
    (h : ∀ c, v.head? = some c → p c = false) : runStar p v k = k v := by
  cases v with
  | nil => rfl
  | cons c t => simp [runStar, h c rfl]

/-- The main star evaluation: a satisfied prefix, a stop point whose proper
suffixes all fail, and a succeeding continuation at the stop point. -/
theorem mainStar {p : Char → Bool} {u v : List Char}
    {k : List Char → Option (Option (List Char))} {res : Option (List Char)}
    (hu : ∀ x ∈ u, p x = true)
    (hv : ∀ t, t <:+ v → t ≠ v → k t = none) (hk : k v = some res) :
    runStar p (u ++ v) k = some res :=
  runStar_append_sat hu (by rw [runStar_stop_eq hv, hk])

/-- Literal matching is prefix testing. -/
theorem mrun_reLit (w : List Char) : ∀ (s : List Char) (cap : Option (List Char))
    (k : List Char → Option (List Char) → Option (Option (List Char))),
    mrun (reLit w) s cap k
      = if w <+: s then k (s.drop w.length) cap else none := by
  induction w with
  | nil => intro s cap k; simp [reLit, mrun]
  | cons c cs ih =>
    intro s cap k
    cases s with
    | nil => simp [reLit, mrun, chLit]
    | cons d ds =>
      by_cases hdc : c = d
      · subst hdc
        simp [reLit, mrun, chLit, ih, List.cons_prefix_cons]
      · have : (d == c) = false := by
          simp only [beq_eq_false_iff_ne]
          exact fun h => hdc h.symm
        simp [reLit, mrun, chLit, this, List.cons_prefix_cons, hdc]

/-- Literal matching consumes exactly the literal. -/
theorem mrun_reLit_append {w s : List Char} {cap : Option (List Char)}
    {k : List Char → Option (List Char) → Option (Option (List Char))} :
    mrun (reLit w) (w ++ s) cap k = k s cap := by
  rw [mrun_reLit]
  simp [List.prefix_append, List.drop_left]

/-- A literal followed by a rest: consume the literal, continue with the rest. -/
theorem mrun_lit_cat {w s : List Char} {R : RE} {cap : Option (List Char)}
    {k : List Char → Option (List Char) → Option (Option (List Char))} :
    mrun (.cat (reLit w) R) (w ++ s) cap k = mrun R s cap k := by
  simp [mrun, mrun_reLit_append]

/-- A literal-headed pattern fails when the literal is not a prefix. -/
theorem mrun_lit_cat_none {w s : List Char} {R : RE} {cap : Option (List Char)}
    {k : List Char → Option (List Char) → Option (Option (List Char))}
    (h : ¬ w <+: s) : mrun (.cat (reLit w) R) s cap k = none := by
  simp [mrun, mrun_reLit, h]

/-- A single-character literal consumes its character. -/
theorem mrun_chLit_cons {c : Char} {R : RE} {s : List Char}
    {cap : Option (List Char)}
    {k : List Char → Option (List Char) → Option (Option (List Char))} :
    mrun (.cat (chLit c) R) (c :: s) cap k = mrun R s cap k := by
  simp [mrun, chLit]

/-- A pattern headed by a single-character literal fails unless that character
is first. -/
theorem mrun_headChar_none {c : Char} {R : RE} {s : List Char}
    {cap : Option (List Char)}
    {k : List Char → Option (List Char) → Option (Option (List Char))}
    (h : s = [] ∨ s.head? ≠ some c) :
    mrun (.cat (chLit c) R) s cap k = none := by
  rcases h with rfl | h
  · simp [mrun, chLit]
  · cases s with
    | nil => simp [mrun, chLit]
    | cons d ds =>
      have hdc : (d == c) = false := by
        simp only [beq_eq_false_iff_ne]
        exact fun hdc => h (by rw [hdc]; rfl)
      simp [mrun, chLit, hdc]

/-- `p+` followed by a rest: consume a maximal nonempty block of `p`
characters, then continue (exactly, when the continuation succeeds and the
next character leaves the class). -/
theorem mrun_plus_cat {p : Char → Bool} {R : RE} {d v : List Char}
    {cap : Option (List Char)}
    {k : List Char → Option (List Char) → Option (Option (List Char))}
    {res : Option (List Char)}
    (hd : ∀ x ∈ d, p x = true) (hne : d ≠ [])
    (hstop : ∀ c, v.head? = some c → p c = false)
    (hk : mrun R v cap k = some res) :
    mrun (.cat (rePlus p) R) (d ++ v) cap k = some res := by
  obtain ⟨c, cs, rfl⟩ := List.exists_cons_of_ne_nil hne
  have hc : p c = true := hd c (by simp)
  simp only [rePlus, mrun, List.cons_append, hc, if_true]
  exact runStar_append_sat (fun x hx => hd x (by simp [hx]))
    (by rw [runStar_stop_head fun c hc => hstop c hc]; exact hk)

/-- `p+` fails when the first character leaves the class. -/
theorem mrun_plus_none {p : Char → Bool} {R : RE} {s : List Char}
    {cap : Option (List Char)}
    {k : List Char → Option (List Char) → Option (Option (List Char))}
    (h : ∀ c, s.head? = some c → p c = false) :
    mrun (.cat (rePlus p) R) s cap k = none := by
  cases s with
  | nil => simp [mrun, rePlus]
  | cons c t => simp [mrun, rePlus, h c rfl]

/-- A search succeeds at position zero when the matcher does. -/
theorem research_of_first {r : RE} {s : List Char} {res : Option (List Char)}
    (h : mrun r s none (fun _ cap => some cap) = some res) :
    research r s = some res := by
  cases s with
  | nil => simpa [research] using h
  | cons c t => simp [research, h]

/-- A suffix of an append is a suffix of the right part or extends it by a
nonempty suffix of the left part. -/
theorem suffix_append_split {α : Type} {t a b : List α} (h : t <:+ a ++ b) :
    t <:+ b ∨ ∃ t₁, t₁ ≠ [] ∧ t₁ <:+ a ∧ t = t₁ ++ b := by
  obtain ⟨u, hu⟩ := h
  rcases List.append_eq_append_iff.mp hu with ⟨w, hw₁, hw₂⟩ | ⟨w, hw₁, hw₂⟩
  · by_cases hw : w = []
    · subst hw
      simp only [List.nil_append] at hw₂
      left
      rw [hw₂]
    · right
      exact ⟨w, hw, ⟨u, hw₁.symm⟩, hw₂⟩
  · left
    exact ⟨w, hw₂.symm⟩

/-- In a string with a single interior dot, every suffix is empty, starts
with a non-dot character, or is exactly the suffix at the dot. -/
theorem suffix_of_dot {w₁ w₂ t : List Char} (h1 : '.' ∉ w₁) (h2 : '.' ∉ w₂)
    (ht : t <:+ w₁ ++ '.' :: w₂) :
    t = [] ∨ t.head? ≠ some '.' ∨ t = '.' :: w₂ := by
  rcases suffix_append_split ht with h | ⟨t₁, hne, ht₁, rfl⟩
  · rcases List.suffix_cons_iff.mp h with rfl | h
    · right; right; rfl
    · cases t with
      | nil => left; rfl
      | cons c cs =>
        right; left
        intro hc
        injection hc with hc
        subst hc
        exact h2 (h.mem (List.mem_cons_self _ _))
  · obtain ⟨c, cs, rfl⟩ := List.exists_cons_of_ne_nil hne
    right; left
    intro hc
    injection hc with hc
    subst hc
    exact h1 (ht₁.mem (List.mem_cons_self _ _))

/-- An ASCII digit is not a dot, colon or newline. -/
theorem digit_ne {c : Char} (h : c.isDigit = true) :
    c ≠ '.' ∧ c ≠ ':' ∧ c ≠ '\n' := by
  refine ⟨?_, ?_, ?_⟩ <;> rintro rfl <;> exact absurd h (by decide)

/-- `anyP` holds at every non-newline character. -/
theorem anyP_of_ne {c : Char} (h : c ≠ '\n') : anyP c = true := by
  simpa [anyP, bne_iff_ne] using h

/-- No dot occurs after the extension dot of the path. -/
theorem dot_not_mem_ext_tail {hext : List Char} (hx : HeaderExtOK hext) :
    '.' ∉ hext ++ gccTail := by
  have hg : '.' ∉ gccTail := by decide
  intro hmem
  rcases List.mem_append.mp hmem with hmem | hmem
  · rcases hx with rfl | ⟨x, y, rfl, hx1, hx2, hx3, hy1, hy2, hy3⟩
    · simp at hmem
    · simp only [List.mem_cons, List.not_mem_nil, or_false] at hmem
      rcases hmem with h | h | h
      · exact absurd h (by decide)
      · exact hx3 h.symm
      · exact hy3 h.symm
  · exact hg hmem

/-- Taking everything but the trailing `B` from `A ++ B` yields `A`. -/
theorem take_sub_append (A B : List Char) :
    (A ++ B).take ((A ++ B).length - B.length) = A := by
  have h : (A ++ B).length - B.length = A.length := by simp
  rw [h, List.take_left]

/-- Star followed by a rest, without unfolding the rest. -/
theorem mrun_cat_star {p : Char → Bool} {R : RE} {s : List Char}
    {cap : Option (List Char)}
    {k : List Char → Option (List Char) → Option (Option (List Char))} :
    mrun (.cat (.starCh p) R) s cap k
      = runStar p s fun s₁ => mrun R s₁ cap k := by
  simp [mrun]

/-- Group followed by a rest, without unfolding either. -/
theorem mrun_cat_group {G B : RE} {s : List Char} {cap : Option (List Char)}
    {k : List Char → Option (List Char) → Option (Option (List Char))} :
    mrun (.cat (.group G) B) s cap k
      = mrun G s cap fun s₁ _ =>
          mrun B s₁ (some (s.take (s.length - s₁.length))) k := by
  simp [mrun]

/-- Evaluating `Option.orElse` with a failing first branch. -/
theorem orElse_none_left {α : Type} (f : Unit → Option α) :
    (none : Option α).orElse f = f () := rfl

/-- Evaluating `Option.orElse` with a succeeding first branch. -/
theorem orElse_some_left {α : Type} (a : α) (f : Unit → Option α) :
    (some a).orElse f = some a := rfl

/-- Alternation tries the left branch first. -/
theorem mrun_alt {a b : RE} {s : List Char} {cap : Option (List Char)}
    {k : List Char → Option (List Char) → Option (Option (List Char))} :
    mrun (.alt a b) s cap k
      = (mrun a s cap k).orElse fun _ => mrun b s cap k := by
  simp [mrun]

/-- A single-character class consumes a satisfying character. -/
theorem mrun_cat_ch_cons {p : Char → Bool} {R : RE} {c : Char} {s : List Char}
    {cap : Option (List Char)}
    {k : List Char → Option (List Char) → Option (Option (List Char))}
    (hc : p c = true) :
    mrun (.cat (.ch p) R) (c :: s) cap k = mrun R s cap k := by
  simp [mrun, hc]

/-- A singleton literal consumes its character. -/
theorem mrun_reLit_singleton_cons {c : Char} {s : List Char}
    {cap : Option (List Char)}
    {k : List Char → Option (List Char) → Option (Option (List Char))} :
    mrun (reLit [c]) (c :: s) cap k = k s cap := by
  simp [reLit, mrun, chLit]

/-- The trailing literal consumes itself whole. -/
theorem mrun_gccTail_self {cap : Option (List Char)}
    {k : List Char → Option (List Char) → Option (Option (List Char))} :
    mrun (reLit gccTail) gccTail cap k = k [] cap := by
  have h : mrun (reLit gccTail) (gccTail ++ []) cap k = k [] cap :=
    mrun_reLit_append
  rwa [List.append_nil] at h

/-- The close continuation succeeds exactly at the trailing literal. -/
theorem gccCloseK_at_tail {A X : List Char} (hXA : X = A ++ gccTail)
    (c : Option (List Char)) :
    gccCloseK X gccTail c = some (some A) := by
  rw [gccCloseK, hXA, take_sub_append, mrun_gccTail_self]

/-- The close continuation fails two characters early. -/
theorem gccCloseK_off_tail {X : List Char} {x y : Char} (hx2 : x ≠ ':')
    (c : Option (List Char)) :
    gccCloseK X (x :: y :: gccTail) c = none := by
  rw [gccCloseK, mrun_reLit, if_neg]
  intro h
  rw [show gccTail = ':' :: " No such file or directory".data from by decide] at h
  exact hx2 ((List.cons_prefix_cons.mp h).1.symm)

/-- Concatenation in continuation style, without unfolding the parts. -/
theorem mrun_cat {a b : RE} {s : List Char} {cap : Option (List Char)}
    {k : List Char → Option (List Char) → Option (Option (List Char))} :
    mrun (.cat a b) s cap k
      = mrun a s cap fun s₁ cap₁ => mrun b s₁ cap₁ k := by
  simp [mrun]

/-- A succeeding left alternative decides the alternation. -/
theorem mrun_alt_left_some {a b : RE} {s : List Char} {cap : Option (List Char)}
    {k : List Char → Option (List Char) → Option (Option (List Char))}
    {res : Option (List Char)} (h : mrun a s cap k = some res) :
    mrun (.alt a b) s cap k = some res := by
  rw [mrun_alt, h, orElse_some_left]

/-- A failing left alternative defers to the right alternative. -/
theorem mrun_alt_left_none {a b : RE} {s : List Char} {cap : Option (List Char)}
    {k : List Char → Option (List Char) → Option (Option (List Char))}
    (h : mrun a s cap k = none) :
    mrun (.alt a b) s cap k = mrun b s cap k := by
  rw [mrun_alt, h, orElse_none_left]

/-- A singleton literal rejects any other first character. -/
theorem not_prefix_single {c d : Char} (h : c ≠ d) (s : List Char) :
    ¬ [c] <+: d :: s :=
  fun hp => h (List.cons_prefix_cons.mp hp).1

/-- A pattern headed by a single-character literal rejects any other first
character. -/
theorem mrun_headChar_none_cons {c d : Char} {R : RE} {s : List Char}
    {cap : Option (List Char)}
    {k : List Char → Option (List Char) → Option (Option (List Char))}
    (h : d ≠ c) :
    mrun (.cat (chLit c) R) (d :: s) cap k = none :=
  mrun_headChar_none (Or.inr fun hc => h (Option.some.inj hc))

/-- The group stage of the GCC signature: on input `{q}.{hext}{gccTail}` it
captures exactly `{q}.{hext}` and consumes everything. -/
theorem gcc_group_run (q hext : List Char)
    (hq₁ : '\n' ∉ q) (hx : HeaderExtOK hext) :
    mrun gccR8 (q ++ '.' :: (hext ++ gccTail)) none (fun _ cap => some cap)
      = some (some (q ++ '.' :: hext)) := by
  have hdot : '.' ∉ hext ++ gccTail := dot_not_mem_ext_tail hx
  unfold gccR8 gccGroup
  rw [mrun_cat_group, mrun_cat_star]
  rw [show (fun s₁ (_ : Option (List Char)) =>
      mrun (reLit gccTail) s₁
        (some ((q ++ '.' :: (hext ++ gccTail)).take
          ((q ++ '.' :: (hext ++ gccTail)).length - s₁.length)))
        fun _ cap => some cap) = gccCloseK (q ++ '.' :: (hext ++ gccTail))
    from rfl]
  refine mainStar (fun c hc => anyP_of_ne fun h => hq₁ (h ▸ hc)) ?_ ?_
  · intro t ht hne
    rcases List.suffix_cons_iff.mp ht with rfl | ht
    · exact absurd rfl hne
    · refine mrun_headChar_none ?_
      cases t with
      | nil => exact Or.inl rfl
      | cons c cs =>
        refine Or.inr fun hc => ?_
        injection hc with hc
        subst hc
        exact hdot (ht.mem (List.mem_cons_self _ _))
  · rw [mrun_chLit_cons]
    rcases hx with rfl | ⟨x, y, rfl, hx1, hx2, hx3, hy1, hy2, hy3⟩
    · rw [show (['h'] : List Char) ++ gccTail = 'h' :: gccTail from rfl]
      unfold extH
      rw [mrun_alt, mrun_reLit_singleton_cons,
        gccCloseK_at_tail (A := q ++ '.' :: ['h']) (by simp)]
      simp
    · rw [show (['h', x, y] : List Char) ++ gccTail = 'h' :: x :: y :: gccTail
        from rfl]
      unfold extH
      rw [mrun_alt, mrun_reLit_singleton_cons, gccCloseK_off_tail hx2,
        orElse_none_left]
      unfold dot2
      rw [mrun_chLit_cons, mrun_cat_ch_cons (anyP_of_ne hx1)]
      simp only [mrun, anyP_of_ne hy1, if_true]
      rw [gccCloseK_at_tail (A := q ++ '.' :: ['h', x, y]) (by simp)]

/-- Backtracking into the extension dot of the path fails: after that dot the
remaining text never continues with `:{digits}`. -/
theorem gcc_R2_inner_dot_none (hext : List Char) (hx : HeaderExtOK hext) :
    mrun gccR2 (hext ++ gccTail) none (fun _ cap => some cap) = none := by
  have hfin : mrun gccR3 gccTail none (fun _ cap => some cap) = none := by
    decide
  rcases hx with rfl | ⟨x, y, rfl, hx1, hx2, hx3, hy1, hy2, hy3⟩
  · decide
  · rw [show (['h', x, y] : List Char) ++ gccTail = 'h' :: x :: y :: gccTail
      from rfl]
    unfold gccR2
    rw [mrun_cat]
    unfold extCH
    rw [mrun_alt_left_none
      (by rw [mrun_reLit, if_neg (not_prefix_single (by decide) _)])]
    rw [mrun_alt_left_none (a := dot2 'c') (mrun_headChar_none_cons (by decide))]
    rw [mrun_alt_left_none (a := reLit ['h'])
      (by rw [mrun_reLit_singleton_cons]; exact mrun_headChar_none_cons hx2)]
    unfold dot2
    rw [mrun_chLit_cons, mrun_cat_ch_cons (anyP_of_ne hx1)]
    simp only [mrun, anyP_of_ne hy1, if_true]
    exact hfin

/-- The full GCC signature run on a well-formed diagnostic line: the match
succeeds at the line start and captures exactly the path `{q}.{hext}`. -/
theorem gcc_mrun_core (f d₁ d₂ q hext : List Char)
    (hf : '\n' ∉ f) (hd₁ : d₁ ≠ []) (hd₁d : ∀ c ∈ d₁, c.isDigit = true)
    (hd₂ : d₂ ≠ []) (hd₂d : ∀ c ∈ d₂, c.isDigit = true)
    (hq₁ : '\n' ∉ q) (hq₃ : '.' ∉ q)
    (hx : HeaderExtOK hext) :
    mrun MISSING_HEADER_RE_GCC (gccDiagnosticLine f d₁ d₂ q hext) none
      (fun _ cap => some cap) = some (some (q ++ '.' :: hext)) := by
  unfold MISSING_HEADER_RE_GCC gccDiagnosticLine
  rw [mrun_cat_star]
  refine mainStar (fun c hc => anyP_of_ne fun h => hf (h ▸ hc)) ?_ ?_
  · intro t ht hne
    rcases List.suffix_cons_iff.mp ht with rfl | ht
    · exact absurd rfl hne
    · have hw : ('c' :: ':' ::
          (d₁ ++ ':' :: (d₂ ++ (ferLit ++ (q ++ '.' :: (hext ++ gccTail))))))
          = ('c' :: ':' :: (d₁ ++ ':' :: (d₂ ++ (ferLit ++ q))))
            ++ '.' :: (hext ++ gccTail) := by
        simp [List.append_assoc]
      rw [hw] at ht
      have h1 : '.' ∉ ('c' :: ':' :: (d₁ ++ ':' :: (d₂ ++ (ferLit ++ q)))) := by
        intro hmem
        simp only [List.mem_cons, List.mem_append] at hmem
        rcases hmem with h | h | h | h | h | h | h
        · exact absurd h (by decide)
        · exact absurd h (by decide)
        · exact absurd (hd₁d _ h) (by decide)
        · exact absurd h (by decide)
        · exact absurd (hd₂d _ h) (by decide)
        · exact absurd h (by decide)
        · exact hq₃ h
      have h2 : '.' ∉ hext ++ gccTail := dot_not_mem_ext_tail hx
      rcases suffix_of_dot h1 h2 ht with rfl | hhd | rfl
      · exact mrun_headChar_none (Or.inl rfl)
      · exact mrun_headChar_none (Or.inr hhd)
      · show mrun gccRest ('.' :: (hext ++ gccTail)) none
          (fun _ cap => some cap) = none
        unfold gccRest
        rw [mrun_chLit_cons]
        exact gcc_R2_inner_dot_none hext hx
  · show mrun gccRest ('.' :: 'c' :: ':' ::
        (d₁ ++ ':' :: (d₂ ++ (ferLit ++ (q ++ '.' :: (hext ++ gccTail))))))
        none (fun _ cap => some cap) = some (some (q ++ '.' :: hext))
    have hbranch : mrun gccR3 (':' ::
        (d₁ ++ ':' :: (d₂ ++ (ferLit ++ (q ++ '.' :: (hext ++ gccTail))))))
        none (fun _ cap => some cap) = some (some (q ++ '.' :: hext)) := by
      unfold gccR3
      rw [mrun_chLit_cons]
      unfold gccR4
      refine mrun_plus_cat hd₁d hd₁ (fun c hc => ?_) ?_
      · rw [List.head?_cons] at hc
        rw [← Option.some.inj hc]
        decide
      · unfold gccR5
        rw [mrun_chLit_cons]
        unfold gccR6
        refine mrun_plus_cat hd₂d hd₂ (fun c hc => ?_) ?_
        · rw [show ferLit = ':' :: " fatal error: ".data from by decide,
            List.cons_append, List.head?_cons] at hc
          rw [← Option.some.inj hc]
          decide
        · unfold gccR7
          rw [mrun_lit_cat]
          exact gcc_group_run q hext hq₁ hx
    unfold gccRest
    rw [mrun_chLit_cons]
    unfold gccR2
    rw [mrun_cat]
    unfold extCH
    refine mrun_alt_left_some ?_
    rw [mrun_reLit_singleton_cons]
    exact hbranch

/-- The unanchored search over a well-formed diagnostic line captures the
path. -/
theorem gcc_searchCap (f d₁ d₂ q hext : List Char)
    (hf : '\n' ∉ f) (hd₁ : d₁ ≠ []) (hd₁d : ∀ c ∈ d₁, c.isDigit = true)
    (hd₂ : d₂ ≠ []) (hd₂d : ∀ c ∈ d₂, c.isDigit = true)
    (hq₁ : '\n' ∉ q) (hq₃ : '.' ∉ q) (hx : HeaderExtOK hext) :
    searchCap MISSING_HEADER_RE_GCC (gccDiagnosticLine f d₁ d₂ q hext)
      = some (q ++ '.' :: hext) := by
  rw [searchCap, research_of_first
    (gcc_mrun_core f d₁ d₂ q hext hf hd₁ hd₁d hd₂ hd₂d hq₁ hq₃ hx)]
  rfl

/-- Trimming a word whose last character is not whitespace only strips the
front. -/
theorem rustTrim_eq_dropWhile {l : List Char} {c : Char}
    (h : l.getLast? = some c) (hc : isRustWhitespace c = false) :
    rustTrim l = l.dropWhile isRustWhitespace := by
  rw [rustTrim]
  have hXsuff : l.dropWhile isRustWhitespace <:+ l :=
    List.dropWhile_suffix _
  have hXne : l.dropWhile isRustWhitespace ≠ [] := by
    intro hnil
    have hall := List.dropWhile_eq_nil_iff.mp hnil
    have hcl : c ∈ l := by
      obtain ⟨ys, rfl⟩ := List.getLast?_eq_some_iff.mp h
      exact List.mem_append_right _ (List.mem_cons_self _ _)
    rw [hall c hcl] at hc
    exact absurd hc (by decide)
  have hXlast : (l.dropWhile isRustWhitespace).getLast? = some c := by
    obtain ⟨u, hu⟩ := hXsuff
    rw [← hu, List.getLast?_append_of_ne_nil _ hXne] at h
    exact h
  obtain ⟨ys, hys⟩ := List.getLast?_eq_some_iff.mp hXlast
  rw [hys, List.reverse_append]
  simp [List.dropWhile, hc]

/-- The diagnostic line ends in the non-whitespace character `y`. -/
theorem gccLine_getLast (f d₁ d₂ q hext : List Char) :
    (gccDiagnosticLine f d₁ d₂ q hext).getLast? = some 'y' := by
  have hsplit : gccDiagnosticLine f d₁ d₂ q hext
      = (f ++ '.' :: 'c' :: ':' ::
          (d₁ ++ ':' :: (d₂ ++ (ferLit ++ (q ++ '.' :: hext))))) ++ gccTail := by
    simp [gccDiagnosticLine, List.append_assoc]
  rw [hsplit, List.getLast?_append_of_ne_nil _ (by decide)]
  decide

/-- Dropping leading whitespace from the diagnostic line only affects the
source-file part. -/
theorem gccLine_dropWhile (f d₁ d₂ q hext : List Char) :
    (gccDiagnosticLine f d₁ d₂ q hext).dropWhile isRustWhitespace
      = gccDiagnosticLine (f.dropWhile isRustWhitespace) d₁ d₂ q hext := by
  rw [gccDiagnosticLine, gccDiagnosticLine, List.dropWhile_append]
  rcases h : f.dropWhile isRustWhitespace with _ | ⟨d, ds⟩
  · simp [List.dropWhile, show isRustWhitespace '.' = false from by decide]
  · simp

/-- Trimming the diagnostic line only strips leading whitespace of the
source-file part. -/
theorem gccLine_trim (f d₁ d₂ q hext : List Char) :
    rustTrim (gccDiagnosticLine f d₁ d₂ q hext)
      = gccDiagnosticLine (f.dropWhile isRustWhitespace) d₁ d₂ q hext := by
  rw [rustTrim_eq_dropWhile (gccLine_getLast f d₁ d₂ q hext) (by decide),
    gccLine_dropWhile]

/-- Per-line classification of a well-formed GCC diagnostic line: a Header
cause with the path as token. -/
theorem gcc_classifyLine (f d₁ d₂ q hext : List Char)
    (hf : '\n' ∉ f) (hd₁ : d₁ ≠ []) (hd₁d : ∀ c ∈ d₁, c.isDigit = true)
    (hd₂ : d₂ ≠ []) (hd₂d : ∀ c ∈ d₂, c.isDigit = true)
    (hq₁ : '\n' ∉ q) (hq₃ : '.' ∉ q) (hx : HeaderExtOK hext) :
    classifyLine (gccDiagnosticLine f d₁ d₂ q hext)
      = some (.Header (q ++ '.' :: hext)) := by
  have hf' : '\n' ∉ f.dropWhile isRustWhitespace :=
    fun hmem => hf ((List.dropWhile_suffix _).mem hmem)
  rw [classifyLine]
  rw [gccLine_trim]
  rw [gcc_searchCap (f.dropWhile isRustWhitespace) d₁ d₂ q hext
    hf' hd₁ hd₁d hd₂ hd₂d hq₁ hq₃ hx]
  rfl

/-- Window-level scan of an output whose stderr is a single well-formed GCC
diagnostic line. -/
theorem gcc_scan (f d₁ d₂ q hext : List Char)
    (hf : '\n' ∉ f) (hd₁ : d₁ ≠ []) (hd₁d : ∀ c ∈ d₁, c.isDigit = true)
    (hd₂ : d₂ ≠ []) (hd₂d : ∀ c ∈ d₂, c.isDigit = true)
    (hq₁ : '\n' ∉ q) (hq₃ : '.' ∉ q) (hx : HeaderExtOK hext) :
    scanStderr [gccDiagnosticLine f d₁ d₂ q hext]
      = some (.Header (q ++ '.' :: hext)) := by
  rw [scanStderr]
  simp [List.findSome?,
    gcc_classifyLine f d₁ d₂ q hext hf hd₁ hd₁d hd₂ hd₂d hq₁ hq₃ hx]

/-! ### Claim C4: the GCC missing-header signature -/

/-- Counterexample for C4 as stated: the line `fatal error: foo.h: No such
file or directory` ends in `fatal error: <path>: No such file or directory`
with a path ending in a header extension, yet it does not match the GCC
signature (which also requires a `<file>.<ext>:<line>:<col>:` source location
before `fatal error:`), and classification attaches no cause to it. -/
theorem c4_counterexample :
    classifyLine "fatal error: foo.h: No such file or directory".data = none
    ∧ causeOf (Error.from_command_output "msg".data
        ⟨⟨"exit status: 1".data⟩, [],
          ["fatal error: foo.h: No such file or directory".data]⟩
        .Stderr "pkg-1.0".data) = none := by
  decide

/-- Claim C4 as amended: every line of the form
`{f}.c:{d₁}:{d₂}: fatal error: {q}.{hext}: No such file or directory` — where
`f` contains no newline, `d₁` and `d₂` are nonempty digit strings, `q`
contains no newline and no dot, and the header extension is `h`, or `h` plus
two characters that are not newline, colon or dot — matches the GCC-style
missing-header signature with captured token `{q}.{hext}`, and classification
of an output carrying that line in its scanned window attaches a Header cause
whose token is exactly that path. -/
theorem c4_amended_gcc_header (f d₁ d₂ q hext m v : List Char)
    (st : ExitStatusM) (sd : List (List Char)) (lvl : BuildOutput)
    (hf : '\n' ∉ f) (hd₁ : d₁ ≠ []) (hd₁d : ∀ c ∈ d₁, c.isDigit = true)
    (hd₂ : d₂ ≠ []) (hd₂d : ∀ c ∈ d₂, c.isDigit = true)
    (hq₁ : '\n' ∉ q) (hq₃ : '.' ∉ q) (hx : HeaderExtOK hext) :
    searchCap MISSING_HEADER_RE_GCC (gccDiagnosticLine f d₁ d₂ q hext)
      = some (q ++ '.' :: hext)
    ∧ classifyLine (gccDiagnosticLine f d₁ d₂ q hext)
      = some (.Header (q ++ '.' :: hext))
    ∧ causeOf (Error.from_command_output m
        ⟨st, sd, [gccDiagnosticLine f d₁ d₂ q hext]⟩ lvl v)
      = some ⟨.Header (q ++ '.' :: hext), v⟩ := by
  refine ⟨gcc_searchCap f d₁ d₂ q hext hf hd₁ hd₁d hd₂ hd₂d hq₁ hq₃ hx,
    gcc_classifyLine f d₁ d₂ q hext hf hd₁ hd₁d hd₂ hd₂d hq₁ hq₃ hx, ?_⟩
  rw [causeOf_fco]
  dsimp only
  rw [gcc_scan f d₁ d₂ q hext hf hd₁ hd₁d hd₂ hd₂d hq₁ hq₃ hx]
  rfl

/-- Witness for the amended C4, at the concrete line
`pygraphviz/graphviz_wrap.c:3020:10: fatal error: graphviz/cgraph.h: No such
file or directory`. -/
theorem c4_witness :
    searchCap MISSING_HEADER_RE_GCC
      (gccDiagnosticLine "pygraphviz/graphviz_wrap".data "3020".data "10".data
        "graphviz/cgraph".data ['h'])
      = some ("graphviz/cgraph".data ++ '.' :: ['h'])
    ∧ classifyLine (gccDiagnosticLine "pygraphviz/graphviz_wrap".data
        "3020".data "10".data "graphviz/cgraph".data ['h'])
      = some (.Header ("graphviz/cgraph".data ++ '.' :: ['h']))
    ∧ causeOf (Error.from_command_output "Failed building wheel through setup.py".data
        ⟨⟨"exit status: 1".data⟩, [],
          [gccDiagnosticLine "pygraphviz/graphviz_wrap".data "3020".data
            "10".data "graphviz/cgraph".data ['h']]⟩ .Debug "pygraphviz-1.11".data)
      = some ⟨.Header ("graphviz/cgraph".data ++ '.' :: ['h']), "pygraphviz-1.11".data⟩ :=
  c4_amended_gcc_header "pygraphviz/graphviz_wrap".data "3020".data "10".data
    "graphviz/cgraph".data ['h'] "Failed building wheel through setup.py".data
    "pygraphviz-1.11".data ⟨"exit status: 1".data⟩ [] .Debug
    (by decide) (by decide) (by decide) (by decide) (by decide)
    (by decide) (by decide) (Or.inl rfl)

/-- Witness for C10: same stderr and status, different stdout. -/
theorem c10_witness :
    causeOf (Error.from_command_output "m".data
        ⟨⟨"exit status: 1".data⟩, ["a".data], [wheelNotFoundText]⟩ .Debug "p".data)
      = causeOf (Error.from_command_output "m".data
        ⟨⟨"exit status: 1".data⟩, ["completely different".data, "stdout".data],
          [wheelNotFoundText]⟩ .Debug "p".data) :=
  c10_stdout_independent "m".data _ _ .Debug "p".data rfl rfl
